import Mathlib

/-!
# Verification of `carscrape.py`

A shallow embedding of the car-advertisement scraper `src/carscrape.py`
(listing-ID harvester, detail-page extractor, orchestrator back-fill),
together with theorems settling the specification's claims about it.

Modelling conventions:
* A rendered listing-results site is a `Site`: whether the initial page
  open succeeds (`open_browser` returns a session or `None`), the
  results-count the site reports in its header, the identifiers rendered
  on the first page, and the identifiers on each further page reached by
  clicking the `pagination--right__active` control.  The control is
  present exactly while further pages remain; the staleness wait after a
  click is assumed to complete (its timeout is a real-time event outside
  the embedding).
* A rendered detail page is a `DetailPage`.  Required regions
  (description, price, seller paragraph) are `Option`s: `none` models the
  element being absent, in which case `find_element_by_class_name` raises
  `NoSuchElementException`.  Optional sections (key-specifications list,
  tech-specs table, vehicle-check list) are `Option`s guarded in the
  source by `check_exists_by_class`.  Each key-specification entry is
  modelled as the pair of its icon marker (the second `#`-segment of the
  icon's `xlink:href`) and its text, as rendered on the site's pages.
* Python exceptions are modelled with `Except ScrapeErr` /
  `Except HarvestErr`; Python's `xs[i]` and `xs[-1]` raise `IndexError`
  when out of range, modelled by `exGet` / `exLast`.
* `int(next_car.total)` is modelled by taking the expected total as a
  `Nat` directly; the site's reported count header is likewise a `Nat`.
-/

/-- `BASE_URL` constant from the source. -/
def BASE_URL : String := "https://www.autotrader.co.uk"

/-- One requested (make, model, expected-count) query row, the `CarTup`
namedtuple with the count already converted by `int`. -/
structure CarTup where
  make : String
  model : String
  total : Nat
deriving DecidableEq, Repr

/-- The `Advertisement` class: a flat record of 17 string attributes. -/
structure Advertisement where
  hyperlink : String
  description : String
  seller_type : String
  price : String
  make : String
  model : String
  year : String
  mileage : String
  body_style : String
  co2emission : String
  doors : String
  transmission : String
  was_stolen : String
  was_write_off : String
  was_scrapped : String
  engine_size : String
  fuel_type : String
deriving DecidableEq, Repr

/-- `Advertisement.__init__`: every attribute starts as the empty string. -/
def Advertisement.init : Advertisement :=
  { hyperlink := "", description := "", seller_type := "", price := ""
    make := "", model := "", year := "", mileage := ""
    body_style := "", co2emission := "", doors := "", transmission := ""
    was_stolen := "", was_write_off := "", was_scrapped := ""
    engine_size := "", fuel_type := "" }

/-- Exceptions the harvester can raise: `AttributeError` from calling a
method on the `None` returned by a failed `open_browser`, and
`NoSuchElementException` from looking up the absent next-page control. -/
inductive HarvestErr where
  | attributeError
  | noSuchElement
deriving DecidableEq, Repr

/-- A listing-results site as seen by `search_one_car_type`: whether the
session opens, the count reported in the `search-form__count` header, the
result identifiers rendered on the first page, and on each page reached
by one more click of the next-page control (present iff pages remain). -/
structure Site where
  openOk : Bool
  reportedTotal : Nat
  firstPage : List String
  morePages : List (List String)
deriving DecidableEq, Repr

/-- What a successful run of the harvest loop did: the accumulated
identifier set, how many pages it read, how many times it clicked the
next-page control. -/
structure HarvestOutcome where
  ids : Finset String
  pageReads : Nat
  nextClicks : Nat
deriving DecidableEq

instance {ε α : Type} [DecidableEq ε] [DecidableEq α] :
    DecidableEq (Except ε α) := fun x y =>
  match x, y with
  | .ok a, .ok b =>
      match decEq a b with
      | isTrue h => isTrue (congrArg Except.ok h)
      | isFalse h => isFalse (fun hh => h (Except.ok.inj hh))
  | .ok _, .error _ => isFalse (fun hh => Except.noConfusion hh)
  | .error _, .ok _ => isFalse (fun hh => Except.noConfusion hh)
  | .error e, .error f =>
      match decEq e f with
      | isTrue h => isTrue (congrArg Except.error h)
      | isFalse h => isFalse (fun hh => h (Except.error.inj hh))

/-- The `while True` loop of `search_one_car_type` (lines 229-246): read
the identifiers rendered on the current page into the set, break once
`len(cars_found) >= total_cars`, otherwise look up the
`pagination--right__active` control (raising `NoSuchElementException`
when no further page exists), click it and continue on the next page. -/
def harvestLoop (total_cars : Nat) :
    Finset String → List String → List (List String) →
      Except HarvestErr HarvestOutcome
  | cars_found, cur, [] =>
      let cars_found2 := cars_found ∪ cur.toFinset
      if total_cars ≤ cars_found2.card then
        .ok ⟨cars_found2, 1, 0⟩
      else
        .error .noSuchElement
  | cars_found, cur, p :: ps =>
      let cars_found2 := cars_found ∪ cur.toFinset
      if total_cars ≤ cars_found2.card then
        .ok ⟨cars_found2, 1, 0⟩
      else
        (harvestLoop total_cars cars_found2 p ps).map
          (fun r => ⟨r.ids, r.pageReads + 1, r.nextClicks + 1⟩)

/-- `search_one_car_type` (lines 195-251).  Opens the search URL; when
`open_browser` returns `None` the unguarded
`browser.find_element_by_class_name('search-form__count...')` on line 221
raises `AttributeError` (the `browser is not None` guard inside the loop
is never reached).  When the session opens, the reported total is read
into `actual_total` but deliberately not used (the substitution
`total_cars = actual_total` is commented out); the loop then runs with
the caller-supplied total. -/
def search_one_car_type (site : Site) (next_car : CarTup) :
    Except HarvestErr HarvestOutcome :=
  if site.openOk then
    let _actual_total := site.reportedTotal
    harvestLoop next_car.total ∅ site.firstPage site.morePages
  else
    .error .attributeError

/-- `search_one_car_type` with its resource accounting: the second
component records whether `clean_up(browser)` (line 249) ran before the
function returned.  The call sits on the straight-line path after the
loop with no `try/finally`, so it runs exactly when no exception
propagates. -/
def search_one_car_type_run (site : Site) (next_car : CarTup) :
    Except HarvestErr HarvestOutcome × Bool :=
  match search_one_car_type site next_car with
  | .ok r => (.ok r, true)
  | .error e => (.error e, false)

/-- The identifiers rendered on the first `n` pages of a page sequence,
as a set. -/
def unionOfTake : List (List String) → Nat → Finset String
  | _, 0 => ∅
  | [], _ + 1 => ∅
  | p :: ps, n + 1 => p.toFinset ∪ unionOfTake ps n

/-- Behaviour of the harvest loop on success: the threshold is met at the
exit, each page read was followed by a click only while the threshold was
still unmet (so reads = clicks + 1 and every proper prefix of the pages
read was below the threshold), and the returned set is exactly the union
of the pages read. -/
theorem harvestLoop_ok_spec (total_cars : Nat) (rest : List (List String)) :
    ∀ (acc : Finset String) (cur : List String) (r : HarvestOutcome),
      harvestLoop total_cars acc cur rest = .ok r →
      total_cars ≤ r.ids.card ∧
      r.pageReads = r.nextClicks + 1 ∧
      r.ids = acc ∪ unionOfTake (cur :: rest) r.pageReads ∧
      (∀ j, 1 ≤ j → j < r.pageReads →
        (acc ∪ unionOfTake (cur :: rest) j).card < total_cars) := by
  induction rest with
  | nil =>
      intro acc cur r h
      unfold harvestLoop at h
      dsimp only at h
      split at h
      · rename_i hle
        rw [Except.ok.injEq] at h
        subst h
        refine ⟨hle, rfl, by simp [unionOfTake], ?_⟩
        intro j hj1 hj2
        simp only at hj2
        omega
      · exact Except.noConfusion h
  | cons p ps ih =>
      intro acc cur r h
      unfold harvestLoop at h
      dsimp only at h
      split at h
      · rename_i hle
        rw [Except.ok.injEq] at h
        subst h
        refine ⟨hle, rfl, by simp [unionOfTake], ?_⟩
        intro j hj1 hj2
        simp only at hj2
        omega
      · rename_i hlt
        rcases hrec : harvestLoop total_cars (acc ∪ cur.toFinset) p ps with e | r'
        · rw [hrec] at h
          exact Except.noConfusion h
        · rw [hrec] at h
          simp only [Except.map, Except.ok.injEq] at h
          subst h
          obtain ⟨h1, h2, h3, h4⟩ := ih (acc ∪ cur.toFinset) p r' hrec
          refine ⟨h1, by simp only; omega, ?_, ?_⟩
          · show r'.ids = _
            rw [h3]
            simp [unionOfTake, Finset.union_assoc]
          · intro j hj1 hj2
            simp only at hj2
            cases j with
            | zero => omega
            | succ j' =>
                cases j' with
                | zero =>
                    simp only [unionOfTake, Finset.union_empty]
                    omega
                | succ j'' =>
                    have hj : 1 ≤ j'' + 1 := by omega
                    have hlt2 : j'' + 1 < r'.pageReads := by omega
                    simpa [unionOfTake, Finset.union_assoc] using
                      h4 (j'' + 1) hj hlt2

/-- Claim C1: for every query, the harvest loop of `search_one_car_type`
terminates exactly when the accumulated identifier set reaches the
caller-supplied expected count: on a successful harvest the set has at
least `total` identifiers, every page read except the last happened while
the set was still below `total` (so the next-page control was clicked
exactly `pageReads - 1` times and never after the threshold was met), the
returned set is the union of the pages read, and the result is unchanged
under any value of the site's own reported total (it is never substituted
for the expected count). -/
theorem C1_harvest_stops_at_expected_count (site : Site) (next_car : CarTup)
    (r : HarvestOutcome)
    (h : search_one_car_type site next_car = .ok r) :
    next_car.total ≤ r.ids.card ∧
    r.pageReads = r.nextClicks + 1 ∧
    r.ids = unionOfTake (site.firstPage :: site.morePages) r.pageReads ∧
    (∀ j, 1 ≤ j → j < r.pageReads →
      (unionOfTake (site.firstPage :: site.morePages) j).card <
        next_car.total) ∧
    (∀ t, search_one_car_type { site with reportedTotal := t } next_car =
      .ok r) := by
  obtain ⟨o, rt, fp, mp⟩ := site
  unfold search_one_car_type at h ⊢
  dsimp only at h ⊢
  split at h
  · rename_i ho
    obtain ⟨h1, h2, h3, h4⟩ :=
      harvestLoop_ok_spec next_car.total mp ∅ fp r h
    refine ⟨h1, h2, by simpa using h3, ?_, ?_⟩
    · intro j hj1 hj2
      simpa using h4 j hj1 hj2
    · intro t
      rw [if_pos ho]
      exact h
  · exact Except.noConfusion h

def c1site : Site := ⟨true, 7, ["A", "B"], [["B", "C"], ["D"]]⟩

theorem C1_harvest_stops_at_expected_count_witness :
    search_one_car_type c1site ⟨"Ford", "Fiesta", 3⟩ =
        .ok ⟨{"A", "B", "C"}, 2, 1⟩ ∧
    (⟨"Ford", "Fiesta", 3⟩ : CarTup).total ≤
      (⟨{"A", "B", "C"}, 2, 1⟩ : HarvestOutcome).ids.card := by
  refine ⟨by decide, ?_⟩
  exact (C1_harvest_stops_at_expected_count c1site ⟨"Ford", "Fiesta", 3⟩
    ⟨{"A", "B", "C"}, 2, 1⟩ (by decide)).1

/-- Claim C2 (code bug witness): when the session cannot be opened,
`open_browser` returns `None` and `search_one_car_type` immediately
dereferences it on line 221 (`browser.find_element_by_class_name(...)`),
raising `AttributeError` — it does not return an empty identifier set,
and the `browser is not None` guard inside the loop never runs.  The
session is also not cleaned up on this path. -/
theorem C2_session_open_failure_raises :
    search_one_car_type ⟨false, 12, ["A"], [["B"]]⟩ ⟨"Ford", "Fiesta", 5⟩ =
        .error .attributeError ∧
    search_one_car_type_run ⟨false, 12, ["A"], [["B"]]⟩
        ⟨"Ford", "Fiesta", 5⟩ =
      (.error .attributeError, false) := by
  exact ⟨by decide, by decide⟩

/-- Claim C5 counterexample: a query with expected count 0 against a site
whose first page renders the identifier `A` harvests the set `{A}`, not
the empty set — the loop reads the current page into the set before it
checks the threshold. -/
theorem C5_counterexample :
    search_one_car_type ⟨true, 0, ["A"], []⟩ ⟨"Ford", "Fiesta", 0⟩ =
        .ok ⟨{"A"}, 1, 0⟩ ∧
    ({"A"} : Finset String) ≠ (∅ : Finset String) := by
  exact ⟨by decide, by decide⟩

/-- Claim C5 (amended): for every query with expected count 0 whose
session opens, the harvest performs exactly one page read and no
next-page click, and returns exactly the identifiers rendered on the
first page (the empty set only when that page renders no results). -/
theorem C5_amended_zero_expected_one_read (site : Site) (next_car : CarTup)
    (hopen : site.openOk = true) (h0 : next_car.total = 0) :
    search_one_car_type site next_car =
      .ok ⟨site.firstPage.toFinset, 1, 0⟩ := by
  obtain ⟨o, rt, fp, mp⟩ := site
  simp only at hopen
  subst hopen
  unfold search_one_car_type
  dsimp only
  rw [if_pos rfl, h0]
  cases mp <;>
    simp [harvestLoop, Nat.zero_le]

theorem C5_amended_zero_expected_one_read_witness :
    search_one_car_type ⟨true, 4, ["X", "Y"], [["Z"]]⟩ ⟨"Audi", "A3", 0⟩ =
      .ok ⟨(["X", "Y"] : List String).toFinset, 1, 0⟩ :=
  C5_amended_zero_expected_one_read ⟨true, 4, ["X", "Y"], [["Z"]]⟩
    ⟨"Audi", "A3", 0⟩ rfl rfl

def c7site : Site :=
  ⟨true, 1234, ["A", "B", "C"], [["C", "D", "E"], ["F", "G", "H"]]⟩

/-- Claim C7: for the query `("Ford","Fiesta",5)` against pages yielding
`{A,B,C}` then `{C,D,E}` (with a third page available), the harvested set
is exactly `{A,B,C,D,E}` — the re-surfaced identifier `C` is absorbed by
set membership and not double-counted — after exactly two page reads and
one next-page click, so no third page is requested. -/
theorem C7_duplicates_absorbed_no_third_page :
    search_one_car_type c7site ⟨"Ford", "Fiesta", 5⟩ =
      .ok ⟨{"A", "B", "C", "D", "E"}, 2, 1⟩ := by decide

/-- Exceptions the detail-page extractor can raise: `AttributeError` from
dereferencing the `None` of a failed `open_browser`,
`NoSuchElementException` from a required `find_element` lookup, and
`IndexError` from subscripting a too-short element list. -/
inductive ScrapeErr where
  | attributeError
  | noSuchElement
  | indexError
deriving DecidableEq, Repr

/-- One `li` entry of the key-specifications list: the icon marker
(second `#`-segment of the icon's `xlink:href`) and the entry's text. -/
structure SpecEntry where
  marker : String
  text : String
deriving DecidableEq, Repr

/-- The `car_specs` dict of `scrape_one_car`. -/
structure CarSpecs where
  year : String
  body_style : String
  mileage : String
  engine_size : String
  transmission : String
  fuel_type : String
  doors : String
deriving DecidableEq, Repr

/-- The initial `car_specs` dict (lines 322-329): every key maps to
`"Unknown"`. -/
def initCarSpecs : CarSpecs :=
  { year := "Unknown", body_style := "Unknown", mileage := "Unknown"
    engine_size := "Unknown", transmission := "Unknown"
    fuel_type := "Unknown", doors := "Unknown" }

/-- The body of the `for each_spec in available_specs` loop
(lines 336-355): seven independent `if icon_type == ...` statements, each
overwriting one key of `car_specs` with the entry's text. -/
def specStep (car_specs : CarSpecs) (each_spec : SpecEntry) : CarSpecs :=
  let cs1 := if each_spec.marker = "ks-manufactured-year" then
    { car_specs with year := each_spec.text } else car_specs
  let cs2 := if each_spec.marker = "ks-body-type" then
    { cs1 with body_style := each_spec.text } else cs1
  let cs3 := if each_spec.marker = "ks-mileage" then
    { cs2 with mileage := each_spec.text } else cs2
  let cs4 := if each_spec.marker = "ks-engine-size" then
    { cs3 with engine_size := each_spec.text } else cs3
  let cs5 := if each_spec.marker = "ks-transmission" then
    { cs4 with transmission := each_spec.text } else cs4
  let cs6 := if each_spec.marker = "ks-fuel-type" then
    { cs5 with fuel_type := each_spec.text } else cs5
  if each_spec.marker = "ks-doors" then
    { cs6 with doors := each_spec.text } else cs6

/-- Lines 331-355: when the `key-specifications` list is absent the dict
keeps its defaults, otherwise the loop folds over its entries in order. -/
def specsOf : Option (List SpecEntry) → CarSpecs
  | none => initCarSpecs
  | some available_specs => available_specs.foldl specStep initCarSpecs

/-- A rendered detail page as consumed by `scrape_one_car`.  `none` in a
required region means the `find_element` lookup raises; `none` in an
optional section means its `check_exists_by_class` guard is false.
`techSpecs` items and `vehicleList` items are each the list of their span
contents, in order. -/
structure DetailPage where
  openOk : Bool
  descriptionText : Option String
  priceText : Option String
  sellerHasAnchor : Option Bool
  keySpecs : Option (List SpecEntry)
  techSpecs : Option (List (List String))
  vehicleList : Option (List (List String))
deriving DecidableEq, Repr

/-- A required `find_element` lookup: raises `NoSuchElementException`
when the region is absent. -/
def exFind {α : Type} : Option α → Except ScrapeErr α
  | some v => .ok v
  | none => .error .noSuchElement

/-- Python's `xs[i]` for `i >= 0`: raises `IndexError` out of range. -/
def exGet {α : Type} (xs : List α) (i : Nat) : Except ScrapeErr α :=
  match xs[i]? with
  | some x => .ok x
  | none => .error .indexError

/-- Python's `xs[-1]`: the last element (`xs[len(xs)-1]`), raising
`IndexError` on an empty list. -/
def exLast {α : Type} (xs : List α) : Except ScrapeErr α :=
  exGet xs (xs.length - 1)

/-- Lines 357-366: CO2 emission defaults to `"Unknown"` when the whole
tech-specs table is absent; otherwise it is the second span of the
table's last item (`tech_specs_items[-1]`, `emissions_spans[1]`), either
subscript raising `IndexError` when out of range. -/
def co2Emission : Option (List (List String)) → Except ScrapeErr String
  | none => .ok "Unknown"
  | some tech_specs_items =>
      (exLast tech_specs_items).bind fun emissions_spans =>
      exGet emissions_spans 1

/-- Lines 368-388: the three vehicle-check fields default to `"Unknown"`
only when the whole `basic-check-m__check-list` is absent; otherwise the
second span of items 0, 1, 2 is read (order: stolen, scrapped,
write-off), any subscript raising `IndexError` when out of range. -/
def vehicleHistory : Option (List (List String)) →
    Except ScrapeErr (String × String × String)
  | none => .ok ("Unknown", "Unknown", "Unknown")
  | some vlist_items =>
      (exGet vlist_items 0).bind fun spans0 =>
      (exGet spans0 1).bind fun next_was_stolen =>
      (exGet vlist_items 1).bind fun spans1 =>
      (exGet spans1 1).bind fun next_was_scrapped =>
      (exGet vlist_items 2).bind fun spans2 =>
      (exGet spans2 1).bind fun next_was_write_off =>
      .ok (next_was_stolen, next_was_scrapped, next_was_write_off)

/-- The final assignment block of `scrape_one_car` (lines 299, 390-405):
the `Advertisement()` fresh object with every extracted attribute
assigned; `make` and `model` keep their `__init__` value `""`. -/
def buildAd (next_car next_description next_price : String)
    (seller_anchor : Bool) (car_specs : CarSpecs) (next_emission : String)
    (hist : String × String × String) : Advertisement :=
  { Advertisement.init with
    hyperlink := BASE_URL ++ "/classified/advert/" ++ next_car
    description := next_description
    seller_type := if seller_anchor then "Dealer" else "Private"
    price := next_price
    year := car_specs.year
    mileage := car_specs.mileage
    body_style := car_specs.body_style
    co2emission := next_emission
    doors := car_specs.doors
    transmission := car_specs.transmission
    was_stolen := hist.1
    was_scrapped := hist.2.1
    was_write_off := hist.2.2
    engine_size := car_specs.engine_size
    fuel_type := car_specs.fuel_type }

/-- `scrape_one_car` (lines 288-409).  A failed `open_browser` returns
`None`, and the first `browser.find_element_by_class_name` raises
`AttributeError`; otherwise description, price and the seller paragraph
are required lookups, the seller type is the anchor-child capability
probe, and the three optional sections behave per `specsOf`,
`co2Emission` and `vehicleHistory`. -/
def scrape_one_car (page : DetailPage) (next_car : String) :
    Except ScrapeErr Advertisement :=
  if page.openOk then
    (exFind page.descriptionText).bind fun next_description =>
    (exFind page.priceText).bind fun next_price =>
    (exFind page.sellerHasAnchor).bind fun seller_anchor =>
    (co2Emission page.techSpecs).bind fun next_emission =>
    (vehicleHistory page.vehicleList).bind fun hist =>
    .ok (buildAd next_car next_description next_price seller_anchor
      (specsOf page.keySpecs) next_emission hist)
  else
    .error .attributeError

/-- `scrape_one_car` with its resource accounting: the second component
records whether `clean_up(browser)` (line 407) ran before the function
returned.  The call sits on the straight-line path with no `try/finally`,
so it runs exactly when no exception propagates. -/
def scrape_one_car_run (page : DetailPage) (next_car : String) :
    Except ScrapeErr Advertisement × Bool :=
  match scrape_one_car page next_car with
  | .ok ad => (.ok ad, true)
  | .error e => (.error e, false)

/-- The orchestrator's back-fill (lines 277-279 of `scrape_all_cars`):
stamp the enclosing query's make and model onto the scraped ad. -/
def backfill (next_make next_model : String) (next_ad : Advertisement) :
    Advertisement :=
  { next_ad with make := next_make, model := next_model }

/-- One identifier's trip through the pipeline: extraction followed by
the orchestrator's make/model back-fill. -/
def pipelineAd (page : DetailPage) (next_car next_make next_model : String) :
    Except ScrapeErr Advertisement :=
  (scrape_one_car page next_car).map (backfill next_make next_model)

theorem exBind_ok {α β : Type} {x : Except ScrapeErr α}
    {f : α → Except ScrapeErr β} {b : β} (h : x.bind f = .ok b) :
    ∃ a, x = .ok a ∧ f a = .ok b := by
  cases x with
  | error e => exact Except.noConfusion h
  | ok a => exact ⟨a, rfl, h⟩

theorem exMap_ok {α β : Type} {x : Except ScrapeErr α} {f : α → β} {b : β}
    (h : x.map f = .ok b) : ∃ a, x = .ok a ∧ f a = b := by
  cases x with
  | error e => exact Except.noConfusion h
  | ok a =>
      simp only [Except.map, Except.ok.injEq] at h
      exact ⟨a, rfl, h⟩

theorem exGet_ok {α : Type} {xs : List α} {i : Nat} {x : α}
    (h : exGet xs i = .ok x) : xs[i]? = some x := by
  unfold exGet at h
  split at h
  · rename_i hg
    rw [Except.ok.injEq] at h
    subst h
    exact hg
  · exact Except.noConfusion h

theorem exGet_error {α : Type} {xs : List α} {i : Nat} {e : ScrapeErr}
    (h : exGet xs i = .error e) : e = .indexError := by
  unfold exGet at h
  split at h
  · exact Except.noConfusion h
  · rw [Except.error.injEq] at h
    exact h.symm

theorem getElem?_some_mem {α : Type} (xs : List α) :
    ∀ (i : Nat) (x : α), xs[i]? = some x → x ∈ xs := by
  induction xs with
  | nil => intro i x h; simp at h
  | cons a as ih =>
      intro i x h
      cases i with
      | zero =>
          simp at h
          subst h
          exact List.mem_cons_self a as
      | succ i =>
          simp only [List.getElem?_cons_succ] at h
          exact List.mem_cons_of_mem a (ih i x h)

theorem getElem?_some_lt {α : Type} (xs : List α) :
    ∀ (i : Nat) (x : α), xs[i]? = some x → i + 1 ≤ xs.length := by
  induction xs with
  | nil => intro i x h; simp at h
  | cons a as ih =>
      intro i x h
      cases i with
      | zero => simp
      | succ i =>
          simp only [List.getElem?_cons_succ] at h
          have := ih i x h
          simp only [List.length_cons]
          omega

/-- Claim C8: for every identifier, the hyperlink of any successfully
extracted `Advertisement` is the base URL joined with the fixed path
segment `/classified/advert/` and the identifier, character for
character. -/
theorem C8_hyperlink_exact (page : DetailPage) (next_car : String)
    (ad : Advertisement) (h : scrape_one_car page next_car = .ok ad) :
    ad.hyperlink = BASE_URL ++ "/classified/advert/" ++ next_car := by
  unfold scrape_one_car at h
  split at h
  · obtain ⟨d, hd, h⟩ := exBind_ok h
    obtain ⟨p, hp, h⟩ := exBind_ok h
    obtain ⟨b, hb, h⟩ := exBind_ok h
    obtain ⟨em, hem, h⟩ := exBind_ok h
    obtain ⟨hist, hhist, h⟩ := exBind_ok h
    rw [Except.ok.injEq] at h
    subst h
    rfl
  · exact Except.noConfusion h

def c8page : DetailPage :=
  ⟨true, some "2016 Ford Fiesta", some "£7,000", some false, none, none,
    none⟩

theorem C8_hyperlink_exact_witness :
    scrape_one_car c8page "201910012835451" =
        .ok (buildAd "201910012835451" "2016 Ford Fiesta" "£7,000" false
          initCarSpecs "Unknown" ("Unknown", "Unknown", "Unknown")) ∧
    (buildAd "201910012835451" "2016 Ford Fiesta" "£7,000" false
        initCarSpecs "Unknown" ("Unknown", "Unknown", "Unknown")).hyperlink =
      BASE_URL ++ "/classified/advert/" ++ "201910012835451" := by
  refine ⟨rfl, ?_⟩
  exact C8_hyperlink_exact c8page "201910012835451" _ rfl

/-- Claim C9: on a detail page with no technical-specs table and no
vehicle-history list (and the required regions present), extraction
succeeds, the four fields read from those sections are all `"Unknown"`,
and description, price and seller type are populated from the page. -/
theorem C9_missing_sections_defaulted (next_description next_price : String)
    (seller_anchor : Bool) (keySpecs : Option (List SpecEntry))
    (next_car : String) :
    ∃ ad, scrape_one_car
        ⟨true, some next_description, some next_price, some seller_anchor,
          keySpecs, none, none⟩ next_car = .ok ad ∧
      ad.co2emission = "Unknown" ∧ ad.was_stolen = "Unknown" ∧
      ad.was_write_off = "Unknown" ∧ ad.was_scrapped = "Unknown" ∧
      ad.description = next_description ∧ ad.price = next_price ∧
      ad.seller_type = (if seller_anchor then "Dealer" else "Private") := by
  exact ⟨_, rfl, rfl, rfl, rfl, rfl, rfl, rfl, rfl⟩

theorem vehicleHistory_ok_shape (vlist_items : List (List String))
    (hist : String × String × String)
    (h : vehicleHistory (some vlist_items) = .ok hist) :
    3 ≤ vlist_items.length ∧
    ∀ j, j < 3 → ∀ spans, vlist_items[j]? = some spans →
      2 ≤ spans.length := by
  unfold vehicleHistory at h
  obtain ⟨spans0, h0, h⟩ := exBind_ok h
  obtain ⟨s0, hs0, h⟩ := exBind_ok h
  obtain ⟨spans1, h1, h⟩ := exBind_ok h
  obtain ⟨s1, hs1, h⟩ := exBind_ok h
  obtain ⟨spans2, h2, h⟩ := exBind_ok h
  obtain ⟨s2, hs2, h⟩ := exBind_ok h
  have g0 := exGet_ok h0
  have g1 := exGet_ok h1
  have g2 := exGet_ok h2
  constructor
  · have := getElem?_some_lt vlist_items 2 spans2 g2
    omega
  · intro j hj spans hget
    interval_cases j
    · rw [hget] at g0
      rw [Option.some.injEq] at g0
      subst g0
      exact getElem?_some_lt spans 1 s0 (exGet_ok hs0)
    · rw [hget] at g1
      rw [Option.some.injEq] at g1
      subst g1
      exact getElem?_some_lt spans 1 s1 (exGet_ok hs1)
    · rw [hget] at g2
      rw [Option.some.injEq] at g2
      subst g2
      exact getElem?_some_lt spans 1 s2 (exGet_ok hs2)

theorem vehicleHistory_some_cases (vlist_items : List (List String)) :
    (∃ hist, vehicleHistory (some vlist_items) = .ok hist) ∨
    vehicleHistory (some vlist_items) = .error .indexError := by
  unfold vehicleHistory
  dsimp only
  rcases h0 : exGet vlist_items 0 with e | spans0
  · right; simp [Except.bind, exGet_error h0]
  · simp only [Except.bind]
    rcases hs0 : exGet spans0 1 with e | s0
    · right; simp [Except.bind, exGet_error hs0]
    · simp only [Except.bind]
      rcases h1 : exGet vlist_items 1 with e | spans1
      · right; simp [Except.bind, exGet_error h1]
      · simp only [Except.bind]
        rcases hs1 : exGet spans1 1 with e | s1
        · right; simp [Except.bind, exGet_error hs1]
        · simp only [Except.bind]
          rcases h2 : exGet vlist_items 2 with e | spans2
          · right; simp [Except.bind, exGet_error h2]
          · simp only [Except.bind]
            rcases hs2 : exGet spans2 1 with e | s2
            · right; simp [Except.bind, exGet_error hs2]
            · simp only [Except.bind]
              exact Or.inl ⟨_, rfl⟩

theorem vehicleHistory_bad (vlist_items : List (List String))
    (hbad : vlist_items.length < 3 ∨
      ∃ j, j < 3 ∧ ∃ spans, vlist_items[j]? = some spans ∧
        spans.length < 2) :
    vehicleHistory (some vlist_items) = .error .indexError := by
  rcases vehicleHistory_some_cases vlist_items with ⟨hist, hok⟩ | herr
  · exfalso
    obtain ⟨hlen, hspans⟩ := vehicleHistory_ok_shape vlist_items hist hok
    rcases hbad with hshort | ⟨j, hj, spans, hget, hlt⟩
    · omega
    · have := hspans j hj spans hget
      omega
  · exact herr

theorem co2Emission_error {ts : Option (List (List String))} {e : ScrapeErr}
    (h : co2Emission ts = .error e) : e = .indexError := by
  cases ts with
  | none => exact Except.noConfusion h
  | some tech_specs_items =>
      unfold co2Emission at h
      dsimp only at h
      rcases hl : exLast tech_specs_items with e' | spans
      · rw [hl] at h
        simp only [Except.bind] at h
        rw [Except.error.injEq] at h
        subst h
        exact exGet_error hl
      · rw [hl] at h
        simp only [Except.bind] at h
        exact exGet_error h

/-- Claim C10: the per-field defaulting of the three vehicle-history
fields is keyed only on the whole list's absence — when the list is
present but has fewer than three items, or one of the three read items
has fewer than two span children, extraction raises an out-of-range
error rather than defaulting the unreadable fields to `"Unknown"`. -/
theorem C10_short_vehicle_list_raises (next_description next_price : String)
    (seller_anchor : Bool) (keySpecs : Option (List SpecEntry))
    (techSpecs : Option (List (List String))) (next_car : String)
    (vlist_items : List (List String))
    (hbad : vlist_items.length < 3 ∨
      ∃ j, j < 3 ∧ ∃ spans, vlist_items[j]? = some spans ∧
        spans.length < 2) :
    scrape_one_car
        ⟨true, some next_description, some next_price, some seller_anchor,
          keySpecs, techSpecs, some vlist_items⟩ next_car =
      .error .indexError := by
  have hre : scrape_one_car
      ⟨true, some next_description, some next_price, some seller_anchor,
        keySpecs, techSpecs, some vlist_items⟩ next_car =
      (co2Emission techSpecs).bind (fun next_emission =>
        (vehicleHistory (some vlist_items)).bind (fun hist =>
          .ok (buildAd next_car next_description next_price seller_anchor
            (specsOf keySpecs) next_emission hist))) := rfl
  rw [hre]
  rcases hc : co2Emission techSpecs with e | em
  · simp [Except.bind, co2Emission_error hc]
  · simp only [Except.bind]
    rw [vehicleHistory_bad vlist_items hbad]

theorem C10_short_vehicle_list_raises_witness :
    ([] : List (List String)).length < 3 ∧
    scrape_one_car ⟨true, some "2016 Ford Fiesta", some "£7,000",
        some true, none, none, some []⟩ "201910012835451" =
      .error .indexError := by
  refine ⟨by decide, ?_⟩
  exact C10_short_vehicle_list_raises "2016 Ford Fiesta" "£7,000" true none
    none "201910012835451" [] (Or.inl (by decide))

/-- The text of the last entry in the list carrying the given marker
(`none` when no entry carries it). -/
def lookupLast (m : String) : List SpecEntry → Option String
  | [] => none
  | e :: es =>
      match lookupLast m es with
      | some t => some t
      | none => if e.marker = m then some e.text else none

theorem specStep_eq (cs : CarSpecs) (e : SpecEntry) :
    specStep cs e =
      ⟨if e.marker = "ks-manufactured-year" then e.text else cs.year,
       if e.marker = "ks-body-type" then e.text else cs.body_style,
       if e.marker = "ks-mileage" then e.text else cs.mileage,
       if e.marker = "ks-engine-size" then e.text else cs.engine_size,
       if e.marker = "ks-transmission" then e.text else cs.transmission,
       if e.marker = "ks-fuel-type" then e.text else cs.fuel_type,
       if e.marker = "ks-doors" then e.text else cs.doors⟩ := by
  rcases e with ⟨m, t⟩
  dsimp only
  by_cases h1 : m = "ks-manufactured-year"
  · subst h1; simp +decide [specStep]
  by_cases h2 : m = "ks-body-type"
  · subst h2; simp +decide [specStep]
  by_cases h3 : m = "ks-mileage"
  · subst h3; simp +decide [specStep]
  by_cases h4 : m = "ks-engine-size"
  · subst h4; simp +decide [specStep]
  by_cases h5 : m = "ks-transmission"
  · subst h5; simp +decide [specStep]
  by_cases h6 : m = "ks-fuel-type"
  · subst h6; simp +decide [specStep]
  by_cases h7 : m = "ks-doors"
  · subst h7; simp +decide [specStep]
  simp [specStep, h1, h2, h3, h4, h5, h6, h7]

theorem specStep_year (car_specs : CarSpecs) (e : SpecEntry) :
    (specStep car_specs e).year =
      if e.marker = "ks-manufactured-year" then e.text
      else car_specs.year := by
  rw [specStep_eq]

theorem specStep_body_style (car_specs : CarSpecs) (e : SpecEntry) :
    (specStep car_specs e).body_style =
      if e.marker = "ks-body-type" then e.text
      else car_specs.body_style := by
  rw [specStep_eq]

theorem specStep_mileage (car_specs : CarSpecs) (e : SpecEntry) :
    (specStep car_specs e).mileage =
      if e.marker = "ks-mileage" then e.text else car_specs.mileage := by
  rw [specStep_eq]

theorem specStep_engine_size (car_specs : CarSpecs) (e : SpecEntry) :
    (specStep car_specs e).engine_size =
      if e.marker = "ks-engine-size" then e.text
      else car_specs.engine_size := by
  rw [specStep_eq]

theorem specStep_transmission (car_specs : CarSpecs) (e : SpecEntry) :
    (specStep car_specs e).transmission =
      if e.marker = "ks-transmission" then e.text
      else car_specs.transmission := by
  rw [specStep_eq]

theorem specStep_fuel_type (car_specs : CarSpecs) (e : SpecEntry) :
    (specStep car_specs e).fuel_type =
      if e.marker = "ks-fuel-type" then e.text
      else car_specs.fuel_type := by
  rw [specStep_eq]

theorem specStep_doors (car_specs : CarSpecs) (e : SpecEntry) :
    (specStep car_specs e).doors =
      if e.marker = "ks-doors" then e.text else car_specs.doors := by
  rw [specStep_eq]

theorem foldl_specStep_field (proj : CarSpecs → String) (m : String)
    (hstep : ∀ cs e, proj (specStep cs e) =
      if e.marker = m then e.text else proj cs) :
    ∀ (es : List SpecEntry) (cs : CarSpecs),
      proj (es.foldl specStep cs) = (lookupLast m es).getD (proj cs) := by
  intro es
  induction es with
  | nil => intro cs; rfl
  | cons e es ih =>
      intro cs
      rw [List.foldl_cons, ih]
      cases h : lookupLast m es with
      | some t => simp [lookupLast, h]
      | none =>
          rw [hstep]
          simp only [lookupLast, h]
          split <;> simp

/-- Claim C6: the marker-to-field dispatch is a pure function of the
(marker, text) entry list: each of the seven fields of the resulting map
equals the text of the LAST entry carrying that field's table marker
(later duplicates overwrite earlier ones), and `"Unknown"` when no entry
carries it; entries with markers outside the seven-row table affect no
field. -/
theorem C6_marker_dispatch (available_specs : List SpecEntry) :
    (specsOf (some available_specs)).year =
        (lookupLast "ks-manufactured-year" available_specs).getD "Unknown" ∧
    (specsOf (some available_specs)).body_style =
        (lookupLast "ks-body-type" available_specs).getD "Unknown" ∧
    (specsOf (some available_specs)).mileage =
        (lookupLast "ks-mileage" available_specs).getD "Unknown" ∧
    (specsOf (some available_specs)).engine_size =
        (lookupLast "ks-engine-size" available_specs).getD "Unknown" ∧
    (specsOf (some available_specs)).transmission =
        (lookupLast "ks-transmission" available_specs).getD "Unknown" ∧
    (specsOf (some available_specs)).fuel_type =
        (lookupLast "ks-fuel-type" available_specs).getD "Unknown" ∧
    (specsOf (some available_specs)).doors =
        (lookupLast "ks-doors" available_specs).getD "Unknown" := by
  refine ⟨?_, ?_, ?_, ?_, ?_, ?_, ?_⟩
  · exact foldl_specStep_field CarSpecs.year "ks-manufactured-year"
      specStep_year available_specs initCarSpecs
  · exact foldl_specStep_field CarSpecs.body_style "ks-body-type"
      specStep_body_style available_specs initCarSpecs
  · exact foldl_specStep_field CarSpecs.mileage "ks-mileage"
      specStep_mileage available_specs initCarSpecs
  · exact foldl_specStep_field CarSpecs.engine_size "ks-engine-size"
      specStep_engine_size available_specs initCarSpecs
  · exact foldl_specStep_field CarSpecs.transmission "ks-transmission"
      specStep_transmission available_specs initCarSpecs
  · exact foldl_specStep_field CarSpecs.fuel_type "ks-fuel-type"
      specStep_fuel_type available_specs initCarSpecs
  · exact foldl_specStep_field CarSpecs.doors "ks-doors"
      specStep_doors available_specs initCarSpecs

/-- Whether an `Except` result is a normal (non-exception) return. -/
def exceptOk {ε α : Type} : Except ε α → Bool
  | .ok _ => true
  | .error _ => false

/-- Claim C4 counterexample: a harvest whose threshold is unmet when the
next-page control is absent raises `NoSuchElementException` out of the
loop, and `clean_up(browser)` on line 249 — which is NOT inside a
`try/finally` — never runs: the session is not closed on this error exit
path. -/
theorem C4_counterexample :
    search_one_car_type_run ⟨true, 9, ["A"], []⟩ ⟨"Ford", "Fiesta", 5⟩ =
      (.error .noSuchElement, false) := by decide

/-- Claim C4 (amended): the session opened for a harvest or an extraction
is closed before the operation returns on every NON-exception exit path
(normal completion, including early loop exit at the threshold), and on
no exception path: `clean_up` runs exactly when the operation returns
normally, since neither function has a `try/finally`. -/
theorem C4_amended_closed_iff_normal_return (site : Site)
    (next_car : CarTup) (page : DetailPage) (next_id : String) :
    (search_one_car_type_run site next_car).2 =
        exceptOk (search_one_car_type_run site next_car).1 ∧
    (scrape_one_car_run page next_id).2 =
      exceptOk (scrape_one_car_run page next_id).1 := by
  constructor
  · unfold search_one_car_type_run
    rcases search_one_car_type site next_car with e | r <;> rfl
  · unfold scrape_one_car_run
    rcases scrape_one_car page next_id with e | ad <;> rfl

/-- A field value satisfying the spec's invariant: the sentinel
`"Unknown"` or a non-empty value. -/
def fieldOk (s : String) : Prop := s = "Unknown" ∨ s ≠ ""

/-- All 17 fields of an `Advertisement` satisfy `fieldOk`. -/
def adFieldsOk (ad : Advertisement) : Prop :=
  fieldOk ad.hyperlink ∧ fieldOk ad.description ∧ fieldOk ad.seller_type ∧
  fieldOk ad.price ∧ fieldOk ad.make ∧ fieldOk ad.model ∧
  fieldOk ad.year ∧ fieldOk ad.mileage ∧ fieldOk ad.body_style ∧
  fieldOk ad.co2emission ∧ fieldOk ad.doors ∧ fieldOk ad.transmission ∧
  fieldOk ad.was_stolen ∧ fieldOk ad.was_write_off ∧
  fieldOk ad.was_scrapped ∧ fieldOk ad.engine_size ∧ fieldOk ad.fuel_type

def c3page : DetailPage :=
  ⟨true, some "", some "£7,000", some false, none, none, none⟩

/-- Claim C3 counterexample: a detail page whose description element has
empty text flows through extraction and back-fill into an Advertisement
whose `description` field is `""` — assigned, but neither `"Unknown"`
nor a non-empty value, so the claim as stated fails. -/
theorem C3_counterexample :
    (pipelineAd c3page "201910012835451" "Ford" "Fiesta").map
        Advertisement.description = .ok "" ∧
    ¬ fieldOk "" := by
  refine ⟨rfl, ?_⟩
  intro hcontra
  rcases hcontra with hcontra | hcontra
  · exact absurd hcontra (by decide)
  · exact hcontra rfl

/-- Every text the page supplies (in a required region or inside an
optional section) is non-empty. -/
def pageTextsNonempty (page : DetailPage) : Prop :=
  (∀ d, page.descriptionText = some d → d ≠ "") ∧
  (∀ p, page.priceText = some p → p ≠ "") ∧
  (∀ es e, page.keySpecs = some es → e ∈ es → e.text ≠ "") ∧
  (∀ items spans s, page.techSpecs = some items → spans ∈ items →
    s ∈ spans → s ≠ "") ∧
  (∀ items spans s, page.vehicleList = some items → spans ∈ items →
    s ∈ spans → s ≠ "")

theorem exFind_ok {α : Type} {o : Option α} {a : α}
    (h : exFind o = .ok a) : o = some a := by
  cases o with
  | none => exact Except.noConfusion h
  | some v =>
      unfold exFind at h
      rw [Except.ok.injEq] at h
      rw [h]

theorem hyperlink_ne_empty (next_car : String) :
    BASE_URL ++ "/classified/advert/" ++ next_car ≠ "" := by
  intro hcontra
  have hlen := congrArg String.length hcontra
  rw [String.length_append, String.length_append] at hlen
  have hB : 0 < BASE_URL.length := by decide
  have h0 : ("" : String).length = 0 := rfl
  rw [h0] at hlen
  omega

theorem lookupLast_mem (m : String) (es : List SpecEntry) :
    ∀ t, lookupLast m es = some t → ∃ e, e ∈ es ∧ e.text = t := by
  induction es with
  | nil => intro t h; exact Option.noConfusion h
  | cons e es ih =>
      intro t h
      unfold lookupLast at h
      cases hes : lookupLast m es with
      | some t' =>
          simp only [hes] at h
          rw [Option.some.injEq] at h
          subst h
          obtain ⟨e', he', ht⟩ := ih t' hes
          exact ⟨e', List.mem_cons_of_mem e he', ht⟩
      | none =>
          simp only [hes] at h
          split at h
          · rw [Option.some.injEq] at h
            exact ⟨e, List.mem_cons_self e es, h⟩
          · exact Option.noConfusion h

theorem specsOf_proj_fieldOk (proj : CarSpecs → String) (m : String)
    (hstep : ∀ cs e, proj (specStep cs e) =
      if e.marker = m then e.text else proj cs)
    (hinit : proj initCarSpecs = "Unknown")
    (ks : Option (List SpecEntry))
    (hne : ∀ es e, ks = some es → e ∈ es → e.text ≠ "") :
    fieldOk (proj (specsOf ks)) := by
  unfold fieldOk
  cases ks with
  | none => left; exact hinit
  | some es =>
      have hf := foldl_specStep_field proj m hstep es initCarSpecs
      rw [hinit] at hf
      cases hll : lookupLast m es with
      | none =>
          left
          show proj (es.foldl specStep initCarSpecs) = _
          rw [hf, hll]
          rfl
      | some t =>
          right
          show proj (es.foldl specStep initCarSpecs) ≠ ""
          rw [hf, hll]
          obtain ⟨e, he, ht⟩ := lookupLast_mem m es t hll
          subst ht
          exact hne es e rfl he

theorem co2Emission_ok_cases {ts : Option (List (List String))}
    {em : String} (h : co2Emission ts = .ok em) :
    em = "Unknown" ∨ ∃ items spans, ts = some items ∧ spans ∈ items ∧
      em ∈ spans := by
  cases ts with
  | none =>
      left
      unfold co2Emission at h
      rw [Except.ok.injEq] at h
      exact h.symm
  | some tech_specs_items =>
      right
      unfold co2Emission at h
      dsimp only at h
      obtain ⟨spans, hl, h⟩ := exBind_ok h
      refine ⟨tech_specs_items, spans, rfl, ?_, ?_⟩
      · exact getElem?_some_mem _ _ _ (exGet_ok hl)
      · exact getElem?_some_mem _ _ _ (exGet_ok h)

theorem vehicleHistory_ok_cases {vl : Option (List (List String))}
    {hist : String × String × String} (h : vehicleHistory vl = .ok hist) :
    hist = ("Unknown", "Unknown", "Unknown") ∨
    ∃ items, vl = some items ∧
      (∃ spans, spans ∈ items ∧ hist.1 ∈ spans) ∧
      (∃ spans, spans ∈ items ∧ hist.2.1 ∈ spans) ∧
      (∃ spans, spans ∈ items ∧ hist.2.2 ∈ spans) := by
  cases vl with
  | none =>
      left
      unfold vehicleHistory at h
      rw [Except.ok.injEq] at h
      exact h.symm
  | some vlist_items =>
      right
      unfold vehicleHistory at h
      dsimp only at h
      obtain ⟨spans0, h0, h⟩ := exBind_ok h
      obtain ⟨s0, hs0, h⟩ := exBind_ok h
      obtain ⟨spans1, h1, h⟩ := exBind_ok h
      obtain ⟨s1, hs1, h⟩ := exBind_ok h
      obtain ⟨spans2, h2, h⟩ := exBind_ok h
      obtain ⟨s2, hs2, h⟩ := exBind_ok h
      rw [Except.ok.injEq] at h
      subst h
      refine ⟨vlist_items, rfl, ⟨spans0, ?_, ?_⟩, ⟨spans1, ?_, ?_⟩,
        ⟨spans2, ?_, ?_⟩⟩
      · exact getElem?_some_mem _ _ _ (exGet_ok h0)
      · exact getElem?_some_mem _ _ _ (exGet_ok hs0)
      · exact getElem?_some_mem _ _ _ (exGet_ok h1)
      · exact getElem?_some_mem _ _ _ (exGet_ok hs1)
      · exact getElem?_some_mem _ _ _ (exGet_ok h2)
      · exact getElem?_some_mem _ _ _ (exGet_ok hs2)

/-- Claim C3 (amended): every Advertisement produced by the pipeline
(extraction followed by the orchestrator's make/model back-fill) has
every one of its 17 string fields assigned — the sentinel `"Unknown"` or
a value copied from the page / the query.  The fields are moreover all
`"Unknown"`-or-non-empty PROVIDED the page's extracted texts and the
query's make and model are non-empty; an empty extracted text is copied
into the field verbatim (the code never replaces it by the sentinel),
which is what the counterexample exhibits. -/
theorem C3_amended_fields_defined (page : DetailPage)
    (next_car next_make next_model : String) (ad : Advertisement)
    (hpage : pageTextsNonempty page)
    (hmake : next_make ≠ "") (hmodel : next_model ≠ "")
    (h : pipelineAd page next_car next_make next_model = .ok ad) :
    adFieldsOk ad := by
  obtain ⟨hdesc, hprice, hkey, htech, hveh⟩ := hpage
  unfold pipelineAd at h
  obtain ⟨ad0, hscrape, had⟩ := exMap_ok h
  subst had
  unfold scrape_one_car at hscrape
  split at hscrape
  · obtain ⟨d, hd, hscrape⟩ := exBind_ok hscrape
    obtain ⟨p, hp, hscrape⟩ := exBind_ok hscrape
    obtain ⟨b, hb, hscrape⟩ := exBind_ok hscrape
    obtain ⟨em, hem, hscrape⟩ := exBind_ok hscrape
    obtain ⟨hist, hhist, hscrape⟩ := exBind_ok hscrape
    rw [Except.ok.injEq] at hscrape
    subst hscrape
    unfold adFieldsOk
    refine ⟨?_, ?_, ?_, ?_, ?_, ?_, ?_, ?_, ?_, ?_, ?_, ?_, ?_, ?_, ?_,
      ?_, ?_⟩
    · exact Or.inr (hyperlink_ne_empty next_car)
    · exact Or.inr (hdesc d (exFind_ok hd))
    · refine Or.inr ?_
      show (if b then "Dealer" else "Private") ≠ ""
      cases b <;> decide
    · exact Or.inr (hprice p (exFind_ok hp))
    · exact Or.inr hmake
    · exact Or.inr hmodel
    · exact specsOf_proj_fieldOk CarSpecs.year "ks-manufactured-year"
        specStep_year rfl page.keySpecs hkey
    · exact specsOf_proj_fieldOk CarSpecs.mileage "ks-mileage"
        specStep_mileage rfl page.keySpecs hkey
    · exact specsOf_proj_fieldOk CarSpecs.body_style "ks-body-type"
        specStep_body_style rfl page.keySpecs hkey
    · rcases co2Emission_ok_cases hem with hu | ⟨items, spans, hts, hsp, hmem⟩
      · exact Or.inl hu
      · exact Or.inr (htech items spans em hts hsp hmem)
    · exact specsOf_proj_fieldOk CarSpecs.doors "ks-doors"
        specStep_doors rfl page.keySpecs hkey
    · exact specsOf_proj_fieldOk CarSpecs.transmission "ks-transmission"
        specStep_transmission rfl page.keySpecs hkey
    · rcases vehicleHistory_ok_cases hhist with hu |
        ⟨items, hvl, ⟨spans, hsp, hmem⟩, _, _⟩
      · exact Or.inl (by subst hu; rfl)
      · exact Or.inr (hveh items spans hist.1 hvl hsp hmem)
    · rcases vehicleHistory_ok_cases hhist with hu |
        ⟨items, hvl, _, _, ⟨spans, hsp, hmem⟩⟩
      · exact Or.inl (by subst hu; rfl)
      · exact Or.inr (hveh items spans hist.2.2 hvl hsp hmem)
    · rcases vehicleHistory_ok_cases hhist with hu |
        ⟨items, hvl, _, ⟨spans, hsp, hmem⟩, _⟩
      · exact Or.inl (by subst hu; rfl)
      · exact Or.inr (hveh items spans hist.2.1 hvl hsp hmem)
    · exact specsOf_proj_fieldOk CarSpecs.engine_size "ks-engine-size"
        specStep_engine_size rfl page.keySpecs hkey
    · exact specsOf_proj_fieldOk CarSpecs.fuel_type "ks-fuel-type"
        specStep_fuel_type rfl page.keySpecs hkey
  · exact Except.noConfusion hscrape

def c3goodPage : DetailPage :=
  ⟨true, some "2016 Ford Fiesta 1.0", some "£7,000", some true,
    some [⟨"ks-mileage", "40,000 miles"⟩],
    some [["CO2", "104g/km"]],
    some [["Stolen", "Clear"], ["Scrapped", "Clear"],
      ["Write Off", "Clear"]]⟩

theorem c3goodPage_nonempty : pageTextsNonempty c3goodPage := by
  refine ⟨?_, ?_, ?_, ?_, ?_⟩
  · intro d hd
    rw [show c3goodPage.descriptionText = some "2016 Ford Fiesta 1.0"
      from rfl, Option.some.injEq] at hd
    subst hd
    decide
  · intro p hp
    rw [show c3goodPage.priceText = some "£7,000" from rfl,
      Option.some.injEq] at hp
    subst hp
    decide
  · intro es e hes hmem
    rw [show c3goodPage.keySpecs =
      some [⟨"ks-mileage", "40,000 miles"⟩] from rfl,
      Option.some.injEq] at hes
    subst hes
    fin_cases hmem
    decide
  · intro items spans s hits hsp hs
    rw [show c3goodPage.techSpecs = some [["CO2", "104g/km"]] from rfl,
      Option.some.injEq] at hits
    subst hits
    fin_cases hsp
    fin_cases hs <;> decide
  · intro items spans s hits hsp hs
    rw [show c3goodPage.vehicleList = some [["Stolen", "Clear"],
      ["Scrapped", "Clear"], ["Write Off", "Clear"]] from rfl,
      Option.some.injEq] at hits
    subst hits
    fin_cases hsp <;> fin_cases hs <;> decide

theorem C3_amended_fields_defined_witness :
    adFieldsOk (backfill "Ford" "Fiesta"
      (buildAd "201910012835451" "2016 Ford Fiesta 1.0" "£7,000" true
        (specsOf (some [⟨"ks-mileage", "40,000 miles"⟩])) "104g/km"
        ("Clear", "Clear", "Clear"))) :=
  C3_amended_fields_defined c3goodPage "201910012835451" "Ford" "Fiesta" _
    c3goodPage_nonempty (by decide) (by decide) rfl
